import Mathlib

/-!
Verification of the vulkano triangle demo (src/main.rs) against its
natural-language specification. The Rust program is shallowly embedded:
the swapchain creation, the fixed frame graph (render pass, pipeline,
vertex buffer, recorded command buffer) and the event-loop body are
translated into executable Lean definitions, and the spec claims are
settled as theorems about those definitions.
-/

namespace VulkanoDemo

/-! ### Surface capabilities and swapchain creation (main.rs lines 42-62) -/

/-- Surface capabilities as returned by surface.capabilities(physical):
the fields the demo reads plus the min/max bounds the capabilities report. -/
structure Capabilities where
  min_image_count : Nat
  max_image_count : Option Nat
  current_extent : Option (Nat × Nat)
  min_image_extent : Nat × Nat
  max_image_extent : Nat × Nat
deriving DecidableEq

/-- Pixel formats; the demo requests B8G8R8A8Srgb. -/
inductive Format where
  | B8G8R8A8Srgb
  | R8G8B8A8Srgb
deriving DecidableEq

/-- Present modes; the demo requests Fifo. -/
inductive PresentMode where
  | Fifo
  | Immediate
  | Mailbox
deriving DecidableEq

/-- The swapchain state produced by Swapchain::new as called in the demo. -/
structure SwapchainState where
  format : Format
  extent : Nat × Nat
  present_mode : PresentMode
  num_images : Nat
deriving DecidableEq

/-- Swapchain creation, main.rs lines 42-62: the dimensions are
caps.current_extent.unwrap_or([1024, 768]) and the requested image count is
caps.min_image_count; no clamping of the dimensions to
caps.min_image_extent and caps.max_image_extent appears in the source. -/
def createSwapchain (caps : Capabilities) : SwapchainState :=
  let dimensions := caps.current_extent.getD (1024, 768)
  { format := Format.B8G8R8A8Srgb
    extent := dimensions
    present_mode := PresentMode.Fifo
    num_images := caps.min_image_count }

/-! ### The fixed frame graph (main.rs lines 97-185) -/

/-- The vertex type of the demo: a single 2-component float position
attribute (struct Vertex with position of type two f32, impl_vertex).
Coordinates are embedded as rationals. -/
structure Vertex where
  position : Rat × Rat
deriving DecidableEq

/-- The vertex buffer, main.rs lines 103-121: exactly the three vertices
[-0.5, -0.25], [0.0, 0.5], [0.25, -0.1], uploaded once into a
CpuAccessibleBuffer and never written again. -/
def vertex_buffer : List Vertex :=
  [ { position := (-(1/2 : Rat), -(1/4 : Rat)) }
  , { position := ((0 : Rat), (1/2 : Rat)) }
  , { position := ((1/4 : Rat), -(1/10 : Rat)) } ]

/-- Component type of a vertex attribute. -/
inductive ComponentType where
  | float32
  | uint32
deriving DecidableEq

/-- One vertex-input attribute of the pipeline. -/
structure VertexAttribute where
  name : String
  components : Nat
  ty : ComponentType
deriving DecidableEq

/-- Primitive topology; the demo selects triangle_list. -/
inductive Topology where
  | triangle_list
  | point_list
  | line_list
deriving DecidableEq

/-- The graphics pipeline description as assembled by the builder chain in
main.rs lines 158-168. -/
structure GraphicsPipeline where
  vertex_attributes : List VertexAttribute
  topology : Topology
  dynamic_viewport_count : Nat
  subpass_index : Nat
deriving DecidableEq

/-- The pipeline, main.rs lines 158-168: single-buffer vertex input over
Vertex (one attribute named position with two float32 components), a vertex
shader, triangle_list topology, viewports_dynamic_scissors_irrelevant(1),
a fragment shader, and subpass 0 of the render pass. -/
def pipeline : GraphicsPipeline :=
  { vertex_attributes := [{ name := "position", components := 2, ty := ComponentType.float32 }]
    topology := Topology.triangle_list
    dynamic_viewport_count := 1
    subpass_index := 0 }

/-- A viewport value as it would be supplied through DynamicState. -/
structure Viewport where
  origin : Rat × Rat
  dimensions : Rat × Rat
deriving DecidableEq

/-- The dynamic state supplied to a draw call. -/
structure DynamicState where
  viewports : Option (List Viewport)
  scissors : Option (List (Nat × Nat))
deriving DecidableEq

/-- DynamicState::none(): no viewport values, no scissor values. -/
def DynamicState.noneState : DynamicState :=
  { viewports := Option.none, scissors := Option.none }

/-- A clear value for a color attachment (red, green, blue, alpha). -/
def ClearValue : Type := Rat × Rat × Rat × Rat
deriving instance DecidableEq for ClearValue

/-- One call on the AutoCommandBufferBuilder as issued by the demo. -/
inductive BuilderCall where
  | begin_render_pass (framebuffer_index : Nat) (secondary : Bool)
      (clear_values : List ClearValue)
  | draw (p : GraphicsPipeline) (dynamic_state : DynamicState)
      (vertex_buffers : List (List Vertex))
  | end_render_pass
deriving DecidableEq

/-- The command buffer recorded once before the loop, main.rs lines
171-185: begin_render_pass on framebuffers[0] with clear color
[0.0, 0.0, 1.0, 1.0], one draw of the vertex buffer with
DynamicState::none(), end_render_pass. -/
def command_buffer : List BuilderCall :=
  [ BuilderCall.begin_render_pass 0 false [((0 : Rat), (0 : Rat), (1 : Rat), (1 : Rat))]
  , BuilderCall.draw pipeline DynamicState.noneState [vertex_buffer]
  , BuilderCall.end_render_pass ]

/-- Low-level commands a builder call expands to. -/
inductive Command where
  | beginRenderPass (framebuffer_index : Nat) (clear_values : List ClearValue)
  | bindPipeline (p : GraphicsPipeline)
  | bindVertexBuffers (bufs : List (List Vertex))
  | drawCmd (vertex_count : Nat) (instance_count : Nat)
  | endRenderPass
deriving DecidableEq

/-- Lowering of one builder call: vulkano expands a draw call into binding
the pipeline, binding the vertex buffers, and drawing the whole buffer
(vertex_count = buffer length) with one instance. -/
def lowerCall : BuilderCall → List Command
  | BuilderCall.begin_render_pass fb _ cv => [Command.beginRenderPass fb cv]
  | BuilderCall.draw p _ bufs =>
      [Command.bindPipeline p, Command.bindVertexBuffers bufs,
       Command.drawCmd (bufs.headD []).length 1]
  | BuilderCall.end_render_pass => [Command.endRenderPass]

/-- Lowering of a whole recorded command buffer. -/
def lowerCalls (calls : List BuilderCall) : List Command :=
  calls.flatMap lowerCall

/-- A primary command buffer: either directly recorded calls, or (as built
per frame in main.rs lines 216-221) a primary that only executes a
previously recorded command buffer. -/
inductive PrimaryCB where
  | recorded (calls : List BuilderCall)
  | executes (inner : List BuilderCall)
deriving DecidableEq

/-- The command buffer built and submitted every frame, main.rs lines
216-221: a fresh primary that executes command_buffer.clone(). -/
def per_frame_command_buffer : PrimaryCB :=
  PrimaryCB.executes command_buffer

/-- Framebuffer indices a builder call references. -/
def callFramebufferIndices : BuilderCall → List Nat
  | BuilderCall.begin_render_pass fb _ _ => [fb]
  | _ => []

/-- Framebuffer indices referenced by a primary command buffer. -/
def framebufferIndicesOf : PrimaryCB → List Nat
  | PrimaryCB.recorded calls => calls.flatMap callFramebufferIndices
  | PrimaryCB.executes inner => inner.flatMap callFramebufferIndices

/-- Dynamic states passed to the draw calls of a recorded command buffer. -/
def drawDynamicStates (calls : List BuilderCall) : List DynamicState :=
  calls.flatMap fun c =>
    match c with
    | BuilderCall.draw _ d _ => [d]
    | _ => []

/-! ### GpuFuture chains and semaphores (main.rs lines 188-191, 222-239) -/

/-- The structure of a GpuFuture chain as built by the demo: the
already-signaled vulkano sync now future, the acquisition future returned
by acquire_next_image, and the combinators join, then_execute,
then_swapchain_present, then_signal_fence_and_flush. -/
inductive GpuFuture where
  | now
  | swapchainAcquire (image_index : Nat)
  | join (a : GpuFuture) (b : GpuFuture)
  | thenExecute (f : GpuFuture) (cb : PrimaryCB)
  | thenSwapchainPresent (f : GpuFuture) (image_index : Nat)
  | thenSignalFenceAndFlush (f : GpuFuture)
deriving DecidableEq

/-- A future is already signaled (complete) at creation exactly when it is
the trivial now future: chaining on it requires no waiting. -/
def GpuFuture.alreadySignaled : GpuFuture → Bool
  | GpuFuture.now => true
  | _ => false

/-- Whether future g occurs in the dependency chain of future f (f itself
included): GPU work represented by f cannot complete before g. -/
def GpuFuture.dependsOn : GpuFuture → GpuFuture → Bool
  | GpuFuture.now, g => GpuFuture.now == g
  | GpuFuture.swapchainAcquire i, g => GpuFuture.swapchainAcquire i == g
  | GpuFuture.join a b, g =>
      GpuFuture.join a b == g || a.dependsOn g || b.dependsOn g
  | GpuFuture.thenExecute a cb, g =>
      GpuFuture.thenExecute a cb == g || a.dependsOn g
  | GpuFuture.thenSwapchainPresent a i, g =>
      GpuFuture.thenSwapchainPresent a i == g || a.dependsOn g
  | GpuFuture.thenSignalFenceAndFlush a, g =>
      GpuFuture.thenSignalFenceAndFlush a == g || a.dependsOn g

/-- The future feeding the then_execute stage of a chain, walking down from
the outermost combinator: the dependency that must be satisfied before the
command-buffer execution (and hence its color-attachment writes) can run. -/
def executePredecessor : GpuFuture → Option GpuFuture
  | GpuFuture.thenSignalFenceAndFlush f => executePredecessor f
  | GpuFuture.thenSwapchainPresent f _ => executePredecessor f
  | GpuFuture.thenExecute f _ => some f
  | _ => none

/-- A semaphore object; the id identifies the underlying Vulkan handle
created by Semaphore::new, so clones of one semaphore share the id. -/
structure Semaphore where
  id : Nat
deriving DecidableEq

/-- The semaphore pair (image_available, finished), main.rs lines 188-191:
one single Semaphore::new call, whose result is cloned into the first slot
and moved into the second, so both name the same semaphore object. -/
def mkSemaphores (fresh : Nat) : Semaphore × Semaphore :=
  let semaphore : Semaphore := { id := fresh }
  (semaphore, semaphore)

/-! ### The event loop (main.rs lines 194-244) -/

/-- Acquire errors distinguished by the match in main.rs lines 206-213:
OutOfDate has its own arm, every other error hits the fatal arm. -/
inductive AcquireError where
  | OutOfDate
  | Timeout
  | SurfaceLost
  | DeviceLost
deriving DecidableEq

/-- Flush errors distinguished by the match in main.rs lines 228-240. -/
inductive FlushError where
  | OutOfDate
  | DeviceLost
  | OomError
deriving DecidableEq

/-- Diagnostic text for an acquire error. -/
def AcquireError.describe : AcquireError → String
  | AcquireError.OutOfDate => "OutOfDate"
  | AcquireError.Timeout => "Timeout"
  | AcquireError.SurfaceLost => "SurfaceLost"
  | AcquireError.DeviceLost => "DeviceLost"

/-- Diagnostic text for a flush error. -/
def FlushError.describe : FlushError → String
  | FlushError.OutOfDate => "OutOfDate"
  | FlushError.DeviceLost => "DeviceLost"
  | FlushError.OomError => "OomError"

/-- The winit control flow values the demo assigns. -/
inductive ControlFlow where
  | Poll
  | Exit
deriving DecidableEq

/-- The mutable state the event-loop closure carries across iterations:
the recreate_swapchain flag, the previous_frame_end future, the control
flow slot, and the two semaphore bindings captured by the closure. -/
structure LoopState where
  recreate_swapchain : Bool
  previous_frame_end : GpuFuture
  control_flow : ControlFlow
  image_available : Semaphore
  finished : Semaphore
deriving DecidableEq

/-- Events the closure matches on, main.rs lines 195-243. -/
inductive Event where
  | CloseRequested
  | RedrawRequested
  | Other
deriving DecidableEq

/-- Observable operations one iteration performs, in order. -/
inductive Action where
  | acquireAttempt
  | recreateSwapchain
  | submitExecute (cb : PrimaryCB)
  | presentEnqueue (image_index : Nat)
  | waitSemaphore (s : Semaphore)
  | signalSemaphore (s : Semaphore)
  | logMessage (msg : String)
deriving DecidableEq

/-- Result of one dispatch of the closure: either normal return with the
updated captured state and the trace of operations performed, or the
process aborts via the panic arm with a diagnostic message. -/
inductive StepResult where
  | continues (s : LoopState) (trace : List Action)
  | fatal (msg : String)
deriving DecidableEq

/-- The trace of a step (empty when the process aborted). -/
def StepResult.trace : StepResult → List Action
  | StepResult.continues _ tr => tr
  | StepResult.fatal _ => []

/-- The state after a step, when the step did not abort. -/
def StepResult.resultState : StepResult → Option LoopState
  | StepResult.continues s _ => some s
  | StepResult.fatal _ => none

/-- Whether the step aborted the process. -/
def StepResult.isFatal : StepResult → Bool
  | StepResult.continues _ _ => false
  | StepResult.fatal _ => true

/-- The future built and flushed on a successful acquire, main.rs lines
222-227: previous_frame_end joined with the acquire future, then execute
of the per-frame command buffer on the queue, then a swapchain present of
image_index, then signal fence and flush. -/
def submittedFuture (s : LoopState) (image_index : Nat) : GpuFuture :=
  GpuFuture.thenSignalFenceAndFlush
    (GpuFuture.thenSwapchainPresent
      (GpuFuture.thenExecute
        (GpuFuture.join s.previous_frame_end (GpuFuture.swapchainAcquire image_index))
        per_frame_command_buffer)
      image_index)

/-- The RedrawRequested arm, main.rs lines 203-241. The outcome of the
acquire call and of then_signal_fence_and_flush are the external inputs of
the iteration (flushOutcome is none when the flush succeeds). On
Err(OutOfDate) the arm sets recreate_swapchain and returns; on any other
acquire error it panics; on success it builds and flushes the future
chain, storing the flushed future (or, on flush failure, a fresh now
future) as previous_frame_end. No arm reads recreate_swapchain and no arm
recreates the swapchain or framebuffers. -/
def redrawRequested (s : LoopState) (acq : Except AcquireError Nat)
    (flushOutcome : Option FlushError) : StepResult :=
  match acq with
  | Except.error AcquireError.OutOfDate =>
      StepResult.continues { s with recreate_swapchain := true } [Action.acquireAttempt]
  | Except.error e =>
      StepResult.fatal ("Failed to acquire next image: " ++ e.describe)
  | Except.ok image_index =>
      match flushOutcome with
      | none =>
          StepResult.continues
            { s with previous_frame_end := submittedFuture s image_index }
            [Action.acquireAttempt, Action.submitExecute per_frame_command_buffer,
             Action.presentEnqueue image_index]
      | some FlushError.OutOfDate =>
          StepResult.continues
            { s with recreate_swapchain := true, previous_frame_end := GpuFuture.now }
            [Action.acquireAttempt, Action.submitExecute per_frame_command_buffer,
             Action.presentEnqueue image_index]
      | some e =>
          StepResult.continues
            { s with previous_frame_end := GpuFuture.now }
            [Action.acquireAttempt, Action.submitExecute per_frame_command_buffer,
             Action.presentEnqueue image_index,
             Action.logMessage ("Failed to flush future: " ++ e.describe)]

/-- One dispatch of the event-loop closure, main.rs lines 194-244:
CloseRequested sets control_flow to Exit and returns, RedrawRequested runs
the frame, every other event does nothing. -/
def eventStep (s : LoopState) (e : Event) (acq : Except AcquireError Nat)
    (flushOutcome : Option FlushError) : StepResult :=
  match e with
  | Event.CloseRequested =>
      StepResult.continues { s with control_flow := ControlFlow.Exit } []
  | Event.RedrawRequested => redrawRequested s acq flushOutcome
  | Event.Other => StepResult.continues s []

/-- Modelled from the spec: the declarations initializing the mutable loop
variables recreate_swapchain and previous_frame_end are absent from the
source file (both variables are used in the closure but never declared);
the spec states that previous_frame_end starts as an already-signaled
completion handle (vulkano sync now) and that the recreate flag is only
raised by a later OutOfDate outcome, so it starts cleared. -/
def initialLoopState (image_available finished : Semaphore) : LoopState :=
  { recreate_swapchain := false
    previous_frame_end := GpuFuture.now
    control_flow := ControlFlow.Poll
    image_available := image_available
    finished := finished }

/-! ### Derived observations and helper lemmas -/

/-- Framebuffer indices referenced by the command buffers submitted in one
step. -/
def submittedFbIndices (r : StepResult) : List Nat :=
  r.trace.flatMap fun a =>
    match a with
    | Action.submitExecute cb => framebufferIndicesOf cb
    | _ => []

/-- The state after a step keeps the same two semaphore bindings. -/
def preservesSemaphores (r : StepResult) (s : LoopState) : Bool :=
  match r.resultState with
  | some t => t.image_available == s.image_available && t.finished == s.finished
  | none => true

/-- The trace of a step waits on and signals no semaphore. -/
def usesNoSemaphore (r : StepResult) : Bool :=
  r.trace.all fun a =>
    match a with
    | Action.waitSemaphore _ => false
    | Action.signalSemaphore _ => false
    | _ => true

/-- Every future occurs in its own dependency chain. -/
theorem GpuFuture.dependsOn_self (f : GpuFuture) : f.dependsOn f = true := by
  cases f <;> simp [GpuFuture.dependsOn]

/-- Concrete loop state used to evaluate the step function. -/
def s0 : LoopState := initialLoopState { id := 0 } { id := 0 }

/-- The loop state after an iteration whose acquire returned OutOfDate. -/
def sA : LoopState := { s0 with recreate_swapchain := true }

/-- An iteration never changes the semaphore bindings of the state. -/
theorem eventStep_preservesSemaphores (s : LoopState) (e : Event)
    (acq : Except AcquireError Nat) (fl : Option FlushError) :
    preservesSemaphores (eventStep s e acq fl) s = true := by
  cases e
  case CloseRequested =>
    simp [eventStep, preservesSemaphores, StepResult.resultState]
  case Other =>
    simp [eventStep, preservesSemaphores, StepResult.resultState]
  case RedrawRequested =>
    cases acq with
    | error ae =>
        cases ae <;>
          simp [eventStep, redrawRequested, preservesSemaphores, StepResult.resultState]
    | ok i =>
        cases fl with
        | none =>
            simp [eventStep, redrawRequested, preservesSemaphores, StepResult.resultState]
        | some fe =>
            cases fe <;>
              simp [eventStep, redrawRequested, preservesSemaphores, StepResult.resultState]

/-- An iteration performs no semaphore wait and no semaphore signal. -/
theorem eventStep_usesNoSemaphore (s : LoopState) (e : Event)
    (acq : Except AcquireError Nat) (fl : Option FlushError) :
    usesNoSemaphore (eventStep s e acq fl) = true := by
  cases e
  case CloseRequested => rfl
  case Other => rfl
  case RedrawRequested =>
    cases acq with
    | error ae => cases ae <;> rfl
    | ok i =>
        cases fl with
        | none => rfl
        | some fe => cases fe <;> rfl

/-- The trace of an iteration does not depend on the captured state. -/
theorem eventStep_trace_const (s t : LoopState) (e : Event)
    (acq : Except AcquireError Nat) (fl : Option FlushError) :
    (eventStep s e acq fl).trace = (eventStep t e acq fl).trace := by
  cases e
  case CloseRequested => rfl
  case Other => rfl
  case RedrawRequested =>
    cases acq with
    | error ae => cases ae <;> rfl
    | ok i =>
        cases fl with
        | none => rfl
        | some fe => cases fe <;> rfl

/-! ### Claims -/

/-- C1: evaluating the loop at the failing input. The iteration whose
acquire returns OutOfDate does set the recreate flag and skip the rest of
the iteration, but the next iteration performs no recreate of the
swapchain or render targets: its trace goes straight from the acquire
attempt to submit and present, contains no recreate action, and the
recreate flag is still set afterwards because nothing ever reads or clears
it. -/
theorem C1_out_of_date_then_no_recreate :
    redrawRequested s0 (Except.error AcquireError.OutOfDate) none
      = StepResult.continues sA [Action.acquireAttempt]
    ∧ sA.recreate_swapchain = true
    ∧ (redrawRequested sA (Except.ok 0) none).trace
        = [Action.acquireAttempt, Action.submitExecute per_frame_command_buffer,
           Action.presentEnqueue 0]
    ∧ Action.recreateSwapchain ∉ (redrawRequested sA (Except.ok 0) none).trace
    ∧ (redrawRequested sA (Except.ok 0) none).resultState.map
        LoopState.recreate_swapchain = some true := by
  refine ⟨rfl, rfl, rfl, ?_, rfl⟩
  decide

/-- C2 as stated is false: with acquired image index 1, the submitted
command buffer references framebuffer index 0 (the one recorded before the
loop), not index 1. -/
theorem C2_counterexample :
    submittedFbIndices (redrawRequested s0 (Except.ok 1) none) = [0]
    ∧ submittedFbIndices (redrawRequested s0 (Except.ok 1) none) ≠ [1] := by
  exact ⟨rfl, by decide⟩

/-- C2 amended: in every iteration the submitted command buffer references
exactly the framebuffer at index 0, regardless of the acquired index, and
index 0 is in range for any positive swapchain image count. -/
theorem C2_submits_framebuffer_zero (s : LoopState) (i n : Nat)
    (fl : Option FlushError) (h : 0 < n) :
    submittedFbIndices (redrawRequested s (Except.ok i) fl) = [0]
    ∧ ∀ j ∈ submittedFbIndices (redrawRequested s (Except.ok i) fl), j < n := by
  have hfb : submittedFbIndices (redrawRequested s (Except.ok i) fl) = [0] := by
    cases fl with
    | none => rfl
    | some e => cases e <;> rfl
  refine ⟨hfb, ?_⟩
  rw [hfb]
  intro j hj
  rcases List.mem_singleton.mp hj with rfl
  exact h

/-- Witness for C2: concrete instance with image index 0 and two swapchain
images. -/
theorem C2_submits_framebuffer_zero_witness :
    0 < 2
    ∧ (submittedFbIndices (redrawRequested s0 (Except.ok 0) none) = [0]
      ∧ ∀ j ∈ submittedFbIndices (redrawRequested s0 (Except.ok 0) none), j < 2) :=
  ⟨by decide, C2_submits_framebuffer_zero s0 0 2 none (by decide)⟩

/-- C3: the initial loop state stores the already-signaled now future as
previous_frame_end, so the first successful iteration submits a chain
whose join has the already-complete now future on its left and therefore
never waits on a previous frame. -/
theorem C3_first_frame_never_waits (ia f : Semaphore) (i : Nat) :
    (initialLoopState ia f).previous_frame_end = GpuFuture.now
    ∧ (initialLoopState ia f).previous_frame_end.alreadySignaled = true
    ∧ submittedFuture (initialLoopState ia f) i
        = GpuFuture.thenSignalFenceAndFlush
            (GpuFuture.thenSwapchainPresent
              (GpuFuture.thenExecute
                (GpuFuture.join GpuFuture.now (GpuFuture.swapchainAcquire i))
                per_frame_command_buffer) i)
    ∧ (redrawRequested (initialLoopState ia f) (Except.ok i) none).resultState.map
        LoopState.previous_frame_end
        = some (submittedFuture (initialLoopState ia f) i) :=
  ⟨rfl, rfl, rfl, rfl⟩

/-- C4: a successful iteration stores, as the new previous frame, the
chain join(previous, acquire) then execute then present then
fence-and-flush, and the dependency feeding the execute stage is exactly
that join, which depends on both the acquisition signal and the previous
frame handle. -/
theorem C4_submission_chain (s : LoopState) (i : Nat) :
    redrawRequested s (Except.ok i) none
      = StepResult.continues { s with previous_frame_end := submittedFuture s i }
          [Action.acquireAttempt, Action.submitExecute per_frame_command_buffer,
           Action.presentEnqueue i]
    ∧ submittedFuture s i
        = GpuFuture.thenSignalFenceAndFlush
            (GpuFuture.thenSwapchainPresent
              (GpuFuture.thenExecute
                (GpuFuture.join s.previous_frame_end (GpuFuture.swapchainAcquire i))
                per_frame_command_buffer) i)
    ∧ executePredecessor (submittedFuture s i)
        = some (GpuFuture.join s.previous_frame_end (GpuFuture.swapchainAcquire i))
    ∧ (GpuFuture.join s.previous_frame_end (GpuFuture.swapchainAcquire i)).dependsOn
        (GpuFuture.swapchainAcquire i) = true
    ∧ (GpuFuture.join s.previous_frame_end (GpuFuture.swapchainAcquire i)).dependsOn
        s.previous_frame_end = true := by
  refine ⟨rfl, rfl, rfl, ?_, ?_⟩
  · simp [GpuFuture.dependsOn]
  · simp [GpuFuture.dependsOn, GpuFuture.dependsOn_self]

/-- C5: a flush failing with OutOfDate sets the recreate flag and resets
the stored handle to the already-signaled now future, and no flush failure
produces the fatal outcome: every flush error leaves the loop running with
previous_frame_end reset to the now future. -/
theorem C5_flush_failure_recovers (s : LoopState) (i : Nat) :
    redrawRequested s (Except.ok i) (some FlushError.OutOfDate)
      = StepResult.continues
          { s with recreate_swapchain := true, previous_frame_end := GpuFuture.now }
          [Action.acquireAttempt, Action.submitExecute per_frame_command_buffer,
           Action.presentEnqueue i]
    ∧ GpuFuture.now.alreadySignaled = true
    ∧ ∀ e : FlushError,
        (redrawRequested s (Except.ok i) (some e)).isFatal = false
        ∧ (redrawRequested s (Except.ok i) (some e)).resultState.map
            LoopState.previous_frame_end = some GpuFuture.now := by
  refine ⟨rfl, rfl, ?_⟩
  intro e
  cases e <;> exact ⟨rfl, rfl⟩

/-- C6: every acquire error other than OutOfDate hits the panic arm and
aborts the process with a diagnostic message, while OutOfDate is survived
(the step is not fatal). -/
theorem C6_acquire_errors_fatal (s : LoopState) (e : AcquireError)
    (fl : Option FlushError) (h : e ≠ AcquireError.OutOfDate) :
    redrawRequested s (Except.error e) fl
      = StepResult.fatal ("Failed to acquire next image: " ++ e.describe)
    ∧ (redrawRequested s (Except.error AcquireError.OutOfDate) fl).isFatal = false := by
  refine ⟨?_, rfl⟩
  cases e with
  | OutOfDate => exact absurd rfl h
  | Timeout => rfl
  | SurfaceLost => rfl
  | DeviceLost => rfl

/-- Witness for C6 at the concrete error DeviceLost. -/
theorem C6_acquire_errors_fatal_witness :
    AcquireError.DeviceLost ≠ AcquireError.OutOfDate
    ∧ (redrawRequested s0 (Except.error AcquireError.DeviceLost) none
        = StepResult.fatal
            ("Failed to acquire next image: " ++ AcquireError.DeviceLost.describe)
      ∧ (redrawRequested s0 (Except.error AcquireError.OutOfDate) none).isFatal
          = false) :=
  ⟨by decide, C6_acquire_errors_fatal s0 AcquireError.DeviceLost none (by decide)⟩

/-- Capabilities of Scenario A: current extent 1024 by 768, minimum image
count 2. -/
def scenarioCaps : Capabilities :=
  { min_image_count := 2
    max_image_count := some 8
    current_extent := some (1024, 768)
    min_image_extent := (1, 1)
    max_image_extent := (4096, 4096) }

/-- Capabilities with no current extent whose reported minimum extent lies
above the 1024 by 768 fallback. -/
def unclampedCaps : Capabilities :=
  { min_image_count := 3
    max_image_count := none
    current_extent := none
    min_image_extent := (1920, 1080)
    max_image_extent := (3840, 2160) }

/-- C7 as stated is false: the source never clamps the requested extent to
the reported min/max bounds. With no current extent and a reported minimum
extent of 1920 by 1080, the swapchain is created with the unclamped
fallback extent 1024 by 768, which lies outside the reported bounds. -/
theorem C7_counterexample :
    (createSwapchain unclampedCaps).extent = (1024, 768)
    ∧ ¬ (unclampedCaps.min_image_extent.1 ≤ (createSwapchain unclampedCaps).extent.1
          ∧ (createSwapchain unclampedCaps).extent.1
              ≤ unclampedCaps.max_image_extent.1) := by
  decide

/-- C7 amended: swapchain creation uses the reported current extent with
fallback 1024 by 768 and requests min_image_count images, with no
clamping; in Scenario A the swapchain has extent 1024 by 768 and at least
2 images. -/
theorem C7_swapchain_creation (caps : Capabilities) :
    (createSwapchain caps).extent = caps.current_extent.getD (1024, 768)
    ∧ (createSwapchain caps).num_images = caps.min_image_count
    ∧ (createSwapchain scenarioCaps).extent = (1024, 768)
    ∧ 2 ≤ (createSwapchain scenarioCaps).num_images :=
  ⟨rfl, rfl, rfl, by decide⟩

/-- C8: the vertex buffer holds exactly 3 vertices, and the recorded
command buffer lowers to exactly begin-render-pass with the blue clear
color, bind pipeline, bind vertex buffer, draw 3 vertices with 1 instance,
end render pass; every successful iteration submits the same pre-recorded
buffer unchanged. -/
theorem C8_static_triangle_recording (s : LoopState) (i : Nat)
    (fl : Option FlushError) :
    vertex_buffer.length = 3
    ∧ lowerCalls command_buffer
        = [Command.beginRenderPass 0 [((0 : Rat), (0 : Rat), (1 : Rat), (1 : Rat))],
           Command.bindPipeline pipeline,
           Command.bindVertexBuffers [vertex_buffer],
           Command.drawCmd 3 1,
           Command.endRenderPass]
    ∧ per_frame_command_buffer = PrimaryCB.executes command_buffer
    ∧ Action.submitExecute per_frame_command_buffer
        ∈ (redrawRequested s (Except.ok i) fl).trace := by
  refine ⟨rfl, rfl, rfl, ?_⟩
  cases fl with
  | none => simp [redrawRequested, StepResult.trace]
  | some e => cases e <;> simp [redrawRequested, StepResult.trace]

/-- C9: evaluating the frame graph at the failing input. The pipeline does
declare a single 2-component float position attribute, triangle-list
topology and one dynamic viewport, but the only recorded draw passes
DynamicState::none(), supplying no viewport value at all. -/
theorem C9_dynamic_viewport_not_supplied :
    pipeline.vertex_attributes
      = [{ name := "position", components := 2, ty := ComponentType.float32 }]
    ∧ pipeline.topology = Topology.triangle_list
    ∧ pipeline.dynamic_viewport_count = 1
    ∧ drawDynamicStates command_buffer = [DynamicState.noneState]
    ∧ DynamicState.noneState.viewports = Option.none :=
  ⟨rfl, rfl, rfl, rfl, rfl⟩

/-- C10: the pair (image_available, finished) is two names for one single
semaphore object, and no iteration of the loop touches them: the state
after any step keeps the same semaphore bindings, no trace contains a
semaphore wait or signal, and the trace is independent of the semaphore
bindings of the state. -/
theorem C10_semaphores_unused (d : Nat) (s : LoopState) (e : Event)
    (acq : Except AcquireError Nat) (fl : Option FlushError)
    (ia f : Semaphore) :
    (mkSemaphores d).1 = (mkSemaphores d).2
    ∧ preservesSemaphores (eventStep s e acq fl) s = true
    ∧ usesNoSemaphore (eventStep s e acq fl) = true
    ∧ (eventStep { s with image_available := ia, finished := f } e acq fl).trace
        = (eventStep s e acq fl).trace :=
  ⟨rfl, eventStep_preservesSemaphores s e acq fl, eventStep_usesNoSemaphore s e acq fl,
   eventStep_trace_const { s with image_available := ia, finished := f } s e acq fl⟩

end VulkanoDemo
